import Mathlib

/-!
# Stergy-Tech: the mock account store and its field validators

A shallow embedding of `src/JS/verificacion-pass.js` (object `UsuarioManager`
and the validators `validarEmail`, `validarUsername`, `validarPassword`) and
of the two click handlers of `src/JS/carrusel.js`.

* A JavaScript string is the list of its UTF-16 code units, so `length`,
  `===` and regular expressions without the `u` flag see exactly what the
  engine sees.
* `String.prototype.toLowerCase` is a host built-in; every operation that
  uses it takes it as the parameter `toLowerCase`.
* `localStorage` / `sessionStorage` are an explicit state, and the two clock
  reads of `crearUsuario` (`Date.now()`, `new Date().toISOString()`) are
  inputs of the call.
* The stored JSON text is represented by the value it parses to, a list of
  well-formed records; `setItem` is taken to succeed (no quota error).
-/

namespace Stergy

/-! ## Strings -/

/-- A JavaScript string value: the sequence of its UTF-16 code units. -/
abbrev JSString := List Nat

/-- UTF-16 encoding of one Unicode scalar value. -/
def utf16 (c : Char) : List Nat :=
  if c.toNat < 0x10000 then [c.toNat]
  else [0xD800 + (c.toNat - 0x10000) / 0x400, 0xDC00 + (c.toNat - 0x10000) % 0x400]

/-- The JavaScript string written by a source literal. -/
def js (s : String) : JSString := s.toList.flatMap utf16

/-- ECMAScript `WhiteSpace` and `LineTerminator` code points: the class `\s`
of a regular expression, and what `String.prototype.trim` strips. -/
def isWhiteSpace (c : Nat) : Bool :=
  c == 0x09 || c == 0x0A || c == 0x0B || c == 0x0C || c == 0x0D || c == 0x20 ||
  c == 0xA0 || c == 0x1680 || (0x2000 ≤ c && c ≤ 0x200A) || c == 0x2028 ||
  c == 0x2029 || c == 0x202F || c == 0x205F || c == 0x3000 || c == 0xFEFF

/-- The method `String.prototype.trim`: strips white space at both ends. -/
def trim (s : JSString) : JSString :=
  ((s.dropWhile isWhiteSpace).reverse.dropWhile isWhiteSpace).reverse

/-- An instance of `toLowerCase` used to evaluate examples: it lowers `A`-`Z`
and leaves every other code unit alone, as the built-in does on ASCII text. -/
def asciiLower (s : JSString) : JSString :=
  s.map fun c => if 0x41 ≤ c ∧ c ≤ 0x5A then c + 0x20 else c

/-! ## Regular expressions (no flags, so matching is per code unit) -/

/-- Regular expressions over code units, with character classes as predicates. -/
inductive Regex where
  | none : Regex
  | eps : Regex
  | cls (p : Nat → Bool) : Regex
  | alt (a b : Regex) : Regex
  | seq (a b : Regex) : Regex
  | star (a : Regex) : Regex

namespace Regex

/-- The quantifier `+`: one or more repetitions. -/
def plus (r : Regex) : Regex := seq r (star r)

/-- A literal code unit. -/
def chr (c : Nat) : Regex := cls fun x => x == c

/-- Whether the expression matches the empty string. -/
def nullable : Regex → Bool
  | none => false
  | eps => true
  | cls _ => false
  | alt a b => a.nullable || b.nullable
  | seq a b => a.nullable && b.nullable
  | star _ => true

/-- Brzozowski derivative: what is left to match after reading `c`. -/
def deriv : Regex → Nat → Regex
  | none, _ => none
  | eps, _ => none
  | cls p, c => if p c then eps else none
  | alt a b, c => alt (a.deriv c) (b.deriv c)
  | seq a b, c =>
      if a.nullable then alt (seq (a.deriv c) b) (b.deriv c) else seq (a.deriv c) b
  | star a, c => seq (a.deriv c) (star a)

/-- Whether the expression matches the whole of `s`. -/
def rmatch (r : Regex) : List Nat → Bool
  | [] => r.nullable
  | c :: s => (r.deriv c).rmatch s

/-- The call `/^r$/.test(s)`: the pattern must match all of `s`. -/
def testAnchored (r : Regex) (s : JSString) : Bool := r.rmatch s

/-- The call `/r/.test(s)`: the pattern must match at some start index, over
some stretch of the input from there. -/
def testSearch (r : Regex) (s : JSString) : Bool :=
  s.tails.any fun t => t.inits.any r.rmatch

/-- The strings an expression denotes. -/
inductive Lang : Regex → List Nat → Prop
  | eps : Lang eps []
  | cls {p : Nat → Bool} {c : Nat} : p c = true → Lang (cls p) [c]
  | altL {a b : Regex} {s : List Nat} : Lang a s → Lang (alt a b) s
  | altR {a b : Regex} {s : List Nat} : Lang b s → Lang (alt a b) s
  | seq {a b : Regex} {s t : List Nat} : Lang a s → Lang b t → Lang (seq a b) (s ++ t)
  | starNil {a : Regex} : Lang (star a) []
  | starCons {a : Regex} {s t : List Nat} :
      Lang a s → Lang (star a) t → Lang (star a) (s ++ t)

end Regex

/-! ## Field validators -/

/-- The class `[^\s@]`. -/
def noEspacioNiArroba (c : Nat) : Bool := !(isWhiteSpace c || c == 0x40)

/-- The class `[a-zA-Z0-9_-]`. -/
def charUsuario (c : Nat) : Bool :=
  (0x61 ≤ c && c ≤ 0x7A) || (0x41 ≤ c && c ≤ 0x5A) || (0x30 ≤ c && c ≤ 0x39) ||
  c == 0x5F || c == 0x2D

/-- The class `\d`, which is `[0-9]`. -/
def esDigito (c : Nat) : Bool := 0x30 ≤ c && c ≤ 0x39

/-- The class `[A-Z]`. -/
def esMayuscula (c : Nat) : Bool := 0x41 ≤ c && c ≤ 0x5A

/-- The pattern of `validarEmail`, between its anchors:
`[^\s@]+@[^\s@]+\.[^\s@]+`. -/
def regexEmail : Regex :=
  .seq (.plus (.cls noEspacioNiArroba))
    (.seq (.chr 0x40)
      (.seq (.plus (.cls noEspacioNiArroba))
        (.seq (.chr 0x2E) (.plus (.cls noEspacioNiArroba)))))

/-- The function `validarEmail(email)`. -/
def validarEmail (email : JSString) : Bool :=
  regexEmail.testAnchored email

/-- The object `{ valido, mensaje }` returned by the two validators below. -/
structure Validacion where
  valido : Bool
  mensaje : String
  deriving DecidableEq

/-- The function `validarUsername(username)`. -/
def validarUsername (username : JSString) : Validacion :=
  if username.isEmpty || trim username == [] then
    { valido := false, mensaje := "El usuario no puede estar vacío" }
  else if username.length < 3 || username.length > 20 then
    { valido := false, mensaje := "El usuario debe tener entre 3 y 20 caracteres" }
  else if !(Regex.plus (.cls charUsuario)).testAnchored username then
    { valido := false,
      mensaje := "El usuario solo puede contener letras, números, guiones y guiones bajos" }
  else
    { valido := true, mensaje := "" }

/-- The function `validarPassword(password)`. -/
def validarPassword (password : JSString) : Validacion :=
  if password.length < 8 then
    { valido := false, mensaje := "La contraseña debe tener mínimo 8 caracteres" }
  else if !(Regex.cls esDigito).testSearch password then
    { valido := false, mensaje := "La contraseña debe contener al menos un número" }
  else if !(Regex.cls esMayuscula).testSearch password then
    { valido := false, mensaje := "La contraseña debe contener al menos una letra mayúscula" }
  else
    { valido := true, mensaje := "" }

/-! ## The user store (`UsuarioManager`) -/

/-- A stored account, as `crearUsuario` and `seedTestUser` build it. -/
structure Usuario where
  id : Int
  username : JSString
  email : JSString
  password : JSString
  fechaRegistro : JSString
  activo : Bool
  deriving DecidableEq

/-- The object `{ exito, mensaje, usuario? }` returned by `crearUsuario` and
`verificarLogin`. -/
structure Resultado where
  exito : Bool
  mensaje : String
  usuario : Option Usuario
  deriving DecidableEq

/-- Browser storage as the manager sees it: the parsed value under the
`localStorage` key `usuarios_stergy` and under the `sessionStorage` key
`usuario_logueado`; `none` is a key that was never written. -/
structure Almacen where
  usuarios : Option (List Usuario)
  sesion : Option Usuario
  deriving DecidableEq

/-- A browser with nothing stored. -/
def Almacen.vacio : Almacen := { usuarios := none, sesion := none }

/-- The method `obtenerUsuarios()`. -/
def obtenerUsuarios (st : Almacen) : List Usuario :=
  match st.usuarios with
  | some usuarios => usuarios
  | none => []

/-- The method `guardarUsuarios(usuarios)`. -/
def guardarUsuarios (st : Almacen) (usuarios : List Usuario) : Almacen :=
  { st with usuarios := some usuarios }

/-- The method `buscarPorEmail(email)`; `none` is JavaScript `null`. -/
def buscarPorEmail (toLowerCase : JSString → JSString) (st : Almacen) (email : JSString) :
    Option Usuario :=
  (obtenerUsuarios st).find? fun user => toLowerCase user.email == toLowerCase email

/-- The method `buscarPorUsuario(username)`; `none` is JavaScript `null`. -/
def buscarPorUsuario (toLowerCase : JSString → JSString) (st : Almacen) (username : JSString) :
    Option Usuario :=
  (obtenerUsuarios st).find? fun user => toLowerCase user.username == toLowerCase username

/-- The method `crearUsuario(username, email, password)`: the returned object and
the storage afterwards. `ahora` is what `Date.now()` returns during the call and
`fecha` what `new Date().toISOString()` returns. -/
def crearUsuario (toLowerCase : JSString → JSString) (st : Almacen)
    (username email password : JSString) (ahora : Int) (fecha : JSString) :
    Resultado × Almacen :=
  if (buscarPorUsuario toLowerCase st username).isSome then
    ({ exito := false, mensaje := "El nombre de usuario ya está registrado", usuario := none }, st)
  else if (buscarPorEmail toLowerCase st email).isSome then
    ({ exito := false, mensaje := "El correo electrónico ya está registrado", usuario := none }, st)
  else
    let nuevoUsuario : Usuario :=
      { id := ahora, username := username, email := email, password := password,
        fechaRegistro := fecha, activo := true }
    let usuarios := obtenerUsuarios st
    ({ exito := true, mensaje := "Cuenta creada exitosamente", usuario := some nuevoUsuario },
      guardarUsuarios st (usuarios ++ [nuevoUsuario]))

/-- The method `verificarLogin(email, password)`: the returned object and the
storage afterwards (the method only reads). -/
def verificarLogin (toLowerCase : JSString → JSString) (st : Almacen)
    (email password : JSString) : Resultado × Almacen :=
  match buscarPorEmail toLowerCase st email with
  | none =>
    ({ exito := false, mensaje := "Correo electrónico o contraseña incorrectos",
       usuario := none }, st)
  | some usuario =>
    if usuario.password != password then
      ({ exito := false, mensaje := "Correo electrónico o contraseña incorrectos",
         usuario := none }, st)
    else
      ({ exito := true, mensaje := "Inicio de sesión exitoso", usuario := some usuario }, st)

/-- The method `iniciarSesion(usuario)`. -/
def iniciarSesion (st : Almacen) (usuario : Usuario) : Almacen :=
  { st with sesion := some usuario }

/-- The method `obtenerUsuarioActual()`; `none` is JavaScript `null`. -/
def obtenerUsuarioActual (st : Almacen) : Option Usuario := st.sesion

/-- The method `cerrarSesion()`. -/
def cerrarSesion (st : Almacen) : Almacen := { st with sesion := none }

/-- The function `usuarioEstaLogueado()`. -/
def usuarioEstaLogueado (st : Almacen) : Bool := (obtenerUsuarioActual st).isSome

/-- The method `seedTestUser()`, with the same two clock inputs as `crearUsuario`. -/
def seedTestUser (toLowerCase : JSString → JSString) (st : Almacen) (ahora : Int)
    (fecha : JSString) : Almacen :=
  let TEST_USERNAME := js "admin"
  let TEST_EMAIL := js "admin@gmail.com"
  let TEST_PASSWORD := js "12345678"
  if (buscarPorEmail toLowerCase st TEST_EMAIL).isSome ||
      (buscarPorUsuario toLowerCase st TEST_USERNAME).isSome then st
  else
    let nuevoUsuario : Usuario :=
      { id := ahora, username := TEST_USERNAME, email := TEST_EMAIL,
        password := TEST_PASSWORD, fechaRegistro := fecha, activo := true }
    let usuarios := obtenerUsuarios st
    guardarUsuarios st (usuarios ++ [nuevoUsuario])

/-! ## Properties the store is checked against -/

/-- No two records at different positions share a lower-cased username or a
lower-cased email. -/
def Unicos (toLowerCase : JSString → JSString) (l : List Usuario) : Prop :=
  l.Pairwise fun a b =>
    toLowerCase a.username ≠ toLowerCase b.username ∧ toLowerCase a.email ≠ toLowerCase b.email

instance (toLowerCase : JSString → JSString) (l : List Usuario) :
    Decidable (Unicos toLowerCase l) :=
  inferInstanceAs (Decidable (List.Pairwise _ l))

/-- No two records at different positions share an id. -/
def IdsUnicos (l : List Usuario) : Prop := l.Pairwise fun a b => a.id ≠ b.id

instance (l : List Usuario) : Decidable (IdsUnicos l) :=
  inferInstanceAs (Decidable (List.Pairwise _ l))

/-- One operation on the user store, with the inputs of that call. -/
inductive Operacion where
  | crear (username email password : JSString) (ahora : Int) (fecha : JSString)
  | seed (ahora : Int) (fecha : JSString)

/-- The storage after one operation. -/
def Operacion.aplicar (toLowerCase : JSString → JSString) (st : Almacen) : Operacion → Almacen
  | .crear username email password ahora fecha =>
      (crearUsuario toLowerCase st username email password ahora fecha).2
  | .seed ahora fecha => seedTestUser toLowerCase st ahora fecha

/-- The storage after a sequence of operations, run from left to right. -/
def ejecutar (toLowerCase : JSString → JSString) (st : Almacen) (ops : List Operacion) :
    Almacen :=
  ops.foldl (Operacion.aplicar toLowerCase) st

/-- The first record of `l` whose email equals `email` once both are lower-cased. -/
def PrimeroConEmail (toLowerCase : JSString → JSString) (l : List Usuario) (email : JSString)
    (u : Usuario) : Prop :=
  ∃ pre post, l = pre ++ u :: post ∧
    (∀ v ∈ pre, toLowerCase v.email ≠ toLowerCase email) ∧
    toLowerCase u.email = toLowerCase email

/-! ## Sample data -/

/-- A record used to evaluate the operations on a concrete store. -/
def ejemploAlice : Usuario :=
  { id := 1700000000000, username := js "alice", email := js "alice@example.com",
    password := js "Passw0rd", fechaRegistro := js "2023-11-14T22:13:20.000Z", activo := true }

/-- A record used to evaluate the operations on a concrete store. -/
def ejemploAdmin : Usuario :=
  { id := 1690000000000, username := js "admin", email := js "admin@gmail.com",
    password := js "12345678", fechaRegistro := js "2023-07-22T04:26:40.000Z", activo := true }

/-- A store holding `ejemploAdmin` and then `ejemploAlice`, nobody logged in. -/
def ejemploAlmacen : Almacen := { usuarios := some [ejemploAdmin, ejemploAlice], sesion := none }

/-! ## The two shapes of an email -/

/-- The shape the specification gives for a valid email: a non-empty part
without white space or `@`, an `@`, a second such part, a `.`, and a non-empty
last part that is only required to be free of white space. -/
def FormaEmailSpec (s : JSString) : Prop :=
  ∃ a b c : JSString,
    s = a ++ 0x40 :: (b ++ 0x2E :: c) ∧
    a ≠ [] ∧ (∀ x ∈ a, isWhiteSpace x = false ∧ x ≠ 0x40) ∧
    b ≠ [] ∧ (∀ x ∈ b, isWhiteSpace x = false ∧ x ≠ 0x40) ∧
    c ≠ [] ∧ (∀ x ∈ c, isWhiteSpace x = false)

/-- The shape the pattern of `validarEmail` accepts: as `FormaEmailSpec`, with
the last part free of `@` as well. -/
def FormaEmail (s : JSString) : Prop :=
  ∃ a b c : JSString,
    s = a ++ 0x40 :: (b ++ 0x2E :: c) ∧
    a ≠ [] ∧ (∀ x ∈ a, isWhiteSpace x = false ∧ x ≠ 0x40) ∧
    b ≠ [] ∧ (∀ x ∈ b, isWhiteSpace x = false ∧ x ≠ 0x40) ∧
    c ≠ [] ∧ (∀ x ∈ c, isWhiteSpace x = false ∧ x ≠ 0x40)

/-! ## The carousel (`src/JS/carrusel.js`) -/

/-- The operator `%` of JavaScript on integers: the remainder of the division
truncated towards zero, so it takes the sign of the dividend. The numbers of
the script are integers far below `2^53`, where the arithmetic of doubles is
exact. -/
def jsMod (a b : Int) : Int := Int.tmod a b

/-- What the script keeps between clicks: the variable `currentIndex`, and the
percentage `p` that `moveToSlide` last wrote into `track.style.transform` as
`translateX(-p%)` (`none` before the first click). -/
structure Carrusel where
  currentIndex : Int
  transform : Option Int
  deriving DecidableEq

/-- The script right after it is loaded: `let currentIndex = 0`. -/
def Carrusel.inicial : Carrusel := { currentIndex := 0, transform := none }

/-- The function `moveToSlide(index)`. -/
def moveToSlide (c : Carrusel) (index : Int) : Carrusel :=
  { c with transform := some (index * 100) }

/-- The click handler of `nextButton`; `slidesLength` is `slides.length`. -/
def clickNext (slidesLength : Nat) (c : Carrusel) : Carrusel :=
  let currentIndex := jsMod (c.currentIndex + 1) slidesLength
  moveToSlide { c with currentIndex := currentIndex } currentIndex

/-- The click handler of `prevButton`; `slidesLength` is `slides.length`. -/
def clickPrev (slidesLength : Nat) (c : Carrusel) : Carrusel :=
  let currentIndex := jsMod (c.currentIndex - 1 + slidesLength) slidesLength
  moveToSlide { c with currentIndex := currentIndex } currentIndex

/-- One click on a button of the carousel. -/
inductive Click where
  | next
  | prev
  deriving DecidableEq

/-- The carousel after one click. -/
def Click.aplicar (slidesLength : Nat) (c : Carrusel) : Click → Carrusel
  | .next => clickNext slidesLength c
  | .prev => clickPrev slidesLength c

/-- The carousel after a sequence of clicks, handled from left to right. -/
def pulsar (slidesLength : Nat) (c : Carrusel) (clicks : List Click) : Carrusel :=
  clicks.foldl (Click.aplicar slidesLength) c

/-! ## The matcher decides the denoted language -/

namespace Regex

theorem nullable_iff (r : Regex) : r.nullable = true ↔ Lang r [] := by
  constructor
  · intro h
    induction r with
    | none => simp [nullable] at h
    | eps => exact Lang.eps
    | cls p => simp [nullable] at h
    | alt a b iha ihb =>
      simp only [nullable, Bool.or_eq_true] at h
      rcases h with h | h
      · exact Lang.altL (iha h)
      · exact Lang.altR (ihb h)
    | seq a b iha ihb =>
      simp only [nullable, Bool.and_eq_true] at h
      exact Lang.seq (s := []) (t := []) (iha h.1) (ihb h.2)
    | star a _ => exact Lang.starNil
  · intro h
    generalize hw : ([] : List Nat) = w at h
    induction h with
    | eps => rfl
    | cls _ => simp at hw
    | altL _ ih => simp [nullable, ih hw]
    | altR _ ih => simp [nullable, ih hw]
    | seq _ _ iha ihb =>
      obtain ⟨h1, h2⟩ := List.append_eq_nil.mp hw.symm
      simp [nullable, iha h1.symm, ihb h2.symm]
    | starNil => rfl
    | starCons _ _ _ _ => rfl

theorem lang_deriv_of_cons {r : Regex} {w : List Nat} (h : Lang r w) :
    ∀ (c : Nat) (s : List Nat), w = c :: s → Lang (r.deriv c) s := by
  induction h with
  | eps => intro c s hw; simp at hw
  | @cls p x hp =>
    intro c s hw
    obtain ⟨rfl, rfl⟩ : x = c ∧ s = [] := by simpa using hw
    simp only [deriv, hp, if_true]
    exact Lang.eps
  | altL _ ih => intro c s hw; exact Lang.altL (ih c s hw)
  | altR _ ih => intro c s hw; exact Lang.altR (ih c s hw)
  | @seq a b u t ha hb iha ihb =>
    intro c s hw
    cases u with
    | nil =>
      have hn : a.nullable = true := (nullable_iff a).mpr ha
      simp only [deriv, hn, if_true]
      exact Lang.altR (ihb c s (by simpa using hw))
    | cons x u =>
      obtain ⟨rfl, rfl⟩ : x = c ∧ u ++ t = s := by simpa using hw
      have h1 : Lang (.seq (a.deriv x) b) (u ++ t) := Lang.seq (iha x u rfl) hb
      simp only [deriv]
      split
      · exact Lang.altL h1
      · exact h1
  | starNil => intro c s hw; simp at hw
  | @starCons a u t ha _ iha iht =>
    intro c s hw
    cases u with
    | nil => exact iht c s (by simpa using hw)
    | cons x u =>
      obtain ⟨rfl, rfl⟩ : x = c ∧ u ++ t = s := by simpa using hw
      exact Lang.seq (iha x u rfl) ‹_›

theorem lang_cons_of_deriv (r : Regex) :
    ∀ (c : Nat) (s : List Nat), Lang (r.deriv c) s → Lang r (c :: s) := by
  induction r with
  | none => intro c s h; cases h
  | eps => intro c s h; cases h
  | cls p =>
    intro c s h
    simp only [deriv] at h
    split at h
    · cases h; exact Lang.cls ‹_›
    · cases h
  | alt a b iha ihb =>
    intro c s h
    cases h with
    | altL h => exact Lang.altL (iha c s h)
    | altR h => exact Lang.altR (ihb c s h)
  | seq a b iha ihb =>
    intro c s h
    have key : ∀ w, Lang (.seq (a.deriv c) b) w → Lang (.seq a b) (c :: w) := by
      intro w hw
      cases hw with
      | seq h1 h2 => exact Lang.seq (iha c _ h1) h2
    simp only [deriv] at h
    split at h
    · rename_i hn
      cases h with
      | altL h => exact key s h
      | altR h => exact Lang.seq (s := []) ((nullable_iff a).mp hn) (ihb c s h)
    · exact key s h
  | star a iha =>
    intro c s h
    cases h with
    | seq h1 h2 => exact Lang.starCons (iha c _ h1) h2

theorem rmatch_iff (r : Regex) (s : List Nat) : r.rmatch s = true ↔ Lang r s := by
  induction s generalizing r with
  | nil => exact nullable_iff r
  | cons c s ih =>
    simp only [rmatch]
    rw [ih]
    exact ⟨lang_cons_of_deriv r c s, fun h => lang_deriv_of_cons h c s rfl⟩

theorem lang_cls_iff (p : Nat → Bool) (s : List Nat) :
    Lang (cls p) s ↔ ∃ c, s = [c] ∧ p c = true := by
  constructor
  · intro h; cases h with
    | cls hp => exact ⟨_, rfl, hp⟩
  · rintro ⟨c, rfl, hp⟩; exact Lang.cls hp

theorem lang_seq_iff (a b : Regex) (s : List Nat) :
    Lang (seq a b) s ↔ ∃ u t, s = u ++ t ∧ Lang a u ∧ Lang b t := by
  constructor
  · intro h; cases h with
    | seq ha hb => exact ⟨_, _, rfl, ha, hb⟩
  · rintro ⟨u, t, rfl, ha, hb⟩; exact Lang.seq ha hb

theorem lang_star_cls_iff (p : Nat → Bool) (s : List Nat) :
    Lang (star (cls p)) s ↔ ∀ c ∈ s, p c = true := by
  constructor
  · intro h
    generalize hr : star (cls p) = r at h
    induction h with
    | eps => cases hr
    | cls _ => cases hr
    | altL _ _ => cases hr
    | altR _ _ => cases hr
    | seq _ _ _ _ => cases hr
    | starNil => simp
    | starCons ha _ _ iht =>
      cases hr
      obtain ⟨x, rfl, hx⟩ := (lang_cls_iff _ _).mp ha
      intro c hc
      rcases List.mem_append.mp hc with hc | hc
      · obtain rfl : c = x := by simpa using hc
        exact hx
      · exact iht rfl c hc
  · intro h
    induction s with
    | nil => exact Lang.starNil
    | cons x s ih =>
      exact Lang.starCons (s := [x]) (Lang.cls (h x (by simp)))
        (ih fun c hc => h c (by simp [hc]))

theorem lang_plus_cls_iff (p : Nat → Bool) (s : List Nat) :
    Lang (plus (cls p)) s ↔ s ≠ [] ∧ ∀ c ∈ s, p c = true := by
  unfold plus
  rw [lang_seq_iff]
  constructor
  · rintro ⟨u, t, rfl, hu, ht⟩
    obtain ⟨x, rfl, hx⟩ := (lang_cls_iff _ _).mp hu
    refine ⟨by simp, ?_⟩
    intro c hc
    rcases List.mem_append.mp hc with hc | hc
    · obtain rfl : c = x := by simpa using hc
      exact hx
    · exact (lang_star_cls_iff p t).mp ht c hc
  · rintro ⟨hne, h⟩
    cases s with
    | nil => exact absurd rfl hne
    | cons x s =>
      exact ⟨[x], s, rfl, Lang.cls (h x (by simp)),
        (lang_star_cls_iff p s).mpr fun c hc => h c (by simp [hc])⟩

theorem testAnchored_plus_cls (p : Nat → Bool) (s : JSString) :
    (plus (cls p)).testAnchored s = true ↔ s ≠ [] ∧ ∀ c ∈ s, p c = true := by
  unfold testAnchored
  rw [rmatch_iff, lang_plus_cls_iff]

theorem testSearch_cls (p : Nat → Bool) (s : JSString) :
    (cls p).testSearch s = true ↔ ∃ c ∈ s, p c = true := by
  unfold testSearch
  simp only [List.any_eq_true, List.mem_tails, List.mem_inits, rmatch_iff, lang_cls_iff]
  constructor
  · rintro ⟨t, ht, u, hu, c, rfl, hc⟩
    exact ⟨c, ht.subset (hu.subset (by simp)), hc⟩
  · rintro ⟨c, hc, hp⟩
    obtain ⟨l1, l2, rfl⟩ := List.append_of_mem hc
    exact ⟨c :: l2, ⟨l1, rfl⟩, [c], ⟨l2, rfl⟩, c, rfl, hp⟩

end Regex

theorem noEspacioNiArroba_iff (c : Nat) :
    noEspacioNiArroba c = true ↔ isWhiteSpace c = false ∧ c ≠ 0x40 := by
  simp [noEspacioNiArroba]

theorem validarEmail_iff_formaEmail (s : JSString) : validarEmail s = true ↔ FormaEmail s := by
  unfold validarEmail regexEmail Regex.testAnchored FormaEmail
  rw [Regex.rmatch_iff]
  simp only [Regex.lang_seq_iff, Regex.lang_plus_cls_iff, Regex.chr, Regex.lang_cls_iff,
    noEspacioNiArroba_iff]
  constructor
  · rintro ⟨a, t1, rfl, ⟨ha, ha2⟩, u1, t2, rfl, ⟨x, rfl, hx⟩, b, t3, rfl, ⟨hb, hb2⟩,
      u2, c, rfl, ⟨y, rfl, hy⟩, hc, hc2⟩
    obtain rfl : x = 0x40 := by simpa using hx
    obtain rfl : y = 0x2E := by simpa using hy
    exact ⟨a, b, c, by simp, ha, ha2, hb, hb2, hc, hc2⟩
  · rintro ⟨a, b, c, rfl, ha, ha2, hb, hb2, hc, hc2⟩
    exact ⟨a, _, rfl, ⟨ha, ha2⟩, [0x40], _, rfl, ⟨_, rfl, by simp⟩, b, _, rfl, ⟨hb, hb2⟩,
      [0x2E], c, rfl, ⟨_, rfl, by simp⟩, hc, hc2⟩

/-! ## Facts about `trim` and the character classes -/

theorem trim_eq_nil_of_all_ws (s : JSString) (h : ∀ c ∈ s, isWhiteSpace c = true) :
    trim s = [] := by
  have h1 : s.dropWhile isWhiteSpace = [] := List.dropWhile_eq_nil_iff.mpr h
  simp [trim, h1]

theorem trim_ne_nil_of_mem (s : JSString) (c : Nat) (hc : c ∈ s)
    (hw : isWhiteSpace c = false) : trim s ≠ [] := by
  intro h
  have h1 : (s.dropWhile isWhiteSpace).reverse.dropWhile isWhiteSpace = [] := by
    simpa [trim] using h
  rw [List.dropWhile_eq_nil_iff] at h1
  have h2 : s.dropWhile isWhiteSpace ≠ [] := by
    intro h3
    rw [List.dropWhile_eq_nil_iff] at h3
    simp [h3 c hc] at hw
  have h4 := List.head_dropWhile_not isWhiteSpace s h2
  have h5 := h1 _ (List.mem_reverse.mpr (List.head_mem h2))
  simp [h5] at h4

theorem charUsuario_iff (c : Nat) :
    charUsuario c = true ↔
      (0x61 ≤ c ∧ c ≤ 0x7A) ∨ (0x41 ≤ c ∧ c ≤ 0x5A) ∨ (0x30 ≤ c ∧ c ≤ 0x39) ∨
        c = 0x5F ∨ c = 0x2D := by
  simp [charUsuario, or_assoc]

theorem not_ws_of_charUsuario (c : Nat) (h : charUsuario c = true) :
    isWhiteSpace c = false := by
  rw [charUsuario_iff] at h
  simp only [isWhiteSpace, Bool.or_eq_false_iff, beq_eq_false_iff_ne, ne_eq,
    Bool.and_eq_false_imp, decide_eq_true_eq, decide_eq_false_iff_not]
  omega

/-! ## Facts about the store operations -/

theorem obtenerUsuarios_guardarUsuarios (st : Almacen) (l : List Usuario) :
    obtenerUsuarios (guardarUsuarios st l) = l := rfl

theorem buscarPorUsuario_eq_none_iff (lower : JSString → JSString) (st : Almacen)
    (username : JSString) :
    buscarPorUsuario lower st username = none ↔
      ∀ u ∈ obtenerUsuarios st, lower u.username ≠ lower username := by
  simp [buscarPorUsuario]

theorem buscarPorEmail_eq_none_iff (lower : JSString → JSString) (st : Almacen)
    (email : JSString) :
    buscarPorEmail lower st email = none ↔
      ∀ u ∈ obtenerUsuarios st, lower u.email ≠ lower email := by
  simp [buscarPorEmail]

theorem buscarPorUsuario_isSome_iff (lower : JSString → JSString) (st : Almacen)
    (username : JSString) :
    (buscarPorUsuario lower st username).isSome = true ↔
      ∃ u ∈ obtenerUsuarios st, lower u.username = lower username := by
  simp [buscarPorUsuario]

theorem buscarPorEmail_isSome_iff (lower : JSString → JSString) (st : Almacen)
    (email : JSString) :
    (buscarPorEmail lower st email).isSome = true ↔
      ∃ u ∈ obtenerUsuarios st, lower u.email = lower email := by
  simp [buscarPorEmail]

theorem buscarPorEmail_eq_some_iff (lower : JSString → JSString) (st : Almacen)
    (email : JSString) (u : Usuario) :
    buscarPorEmail lower st email = some u ↔
      PrimeroConEmail lower (obtenerUsuarios st) email u := by
  unfold buscarPorEmail PrimeroConEmail
  rw [List.find?_eq_some]
  constructor
  · rintro ⟨hp, pre, post, hl, hpre⟩
    exact ⟨pre, post, hl, fun v hv => by simpa using hpre v hv, by simpa using hp⟩
  · rintro ⟨pre, post, hl, hpre, hp⟩
    exact ⟨by simpa using hp, pre, post, hl, fun v hv => by simpa using hpre v hv⟩

/-- The three ways `crearUsuario` can end: a user name already taken. -/
theorem crearUsuario_dup_username (lower : JSString → JSString) (st : Almacen)
    (username email password : JSString) (ahora : Int) (fecha : JSString)
    (h : ∃ u ∈ obtenerUsuarios st, lower u.username = lower username) :
    crearUsuario lower st username email password ahora fecha =
      ({ exito := false, mensaje := "El nombre de usuario ya está registrado",
         usuario := none }, st) := by
  unfold crearUsuario
  rw [if_pos ((buscarPorUsuario_isSome_iff lower st username).mpr h)]

/-- The three ways `crearUsuario` can end: a free user name, an email already taken. -/
theorem crearUsuario_dup_email (lower : JSString → JSString) (st : Almacen)
    (username email password : JSString) (ahora : Int) (fecha : JSString)
    (hu : ¬ ∃ u ∈ obtenerUsuarios st, lower u.username = lower username)
    (he : ∃ u ∈ obtenerUsuarios st, lower u.email = lower email) :
    crearUsuario lower st username email password ahora fecha =
      ({ exito := false, mensaje := "El correo electrónico ya está registrado",
         usuario := none }, st) := by
  unfold crearUsuario
  rw [if_neg (fun h => hu ((buscarPorUsuario_isSome_iff lower st username).mp h)),
    if_pos ((buscarPorEmail_isSome_iff lower st email).mpr he)]

/-- The three ways `crearUsuario` can end: both free, the record is appended. -/
theorem crearUsuario_nuevo (lower : JSString → JSString) (st : Almacen)
    (username email password : JSString) (ahora : Int) (fecha : JSString)
    (hu : ¬ ∃ u ∈ obtenerUsuarios st, lower u.username = lower username)
    (he : ¬ ∃ u ∈ obtenerUsuarios st, lower u.email = lower email) :
    crearUsuario lower st username email password ahora fecha =
      ({ exito := true, mensaje := "Cuenta creada exitosamente",
         usuario := some ⟨ahora, username, email, password, fecha, true⟩ },
       guardarUsuarios st
         (obtenerUsuarios st ++ [⟨ahora, username, email, password, fecha, true⟩])) := by
  unfold crearUsuario
  rw [if_neg (fun h => hu ((buscarPorUsuario_isSome_iff lower st username).mp h)),
    if_neg (fun h => he ((buscarPorEmail_isSome_iff lower st email).mp h))]

theorem unicos_append_singleton (lower : JSString → JSString) (l : List Usuario)
    (n : Usuario) :
    Unicos lower (l ++ [n]) ↔
      Unicos lower l ∧
        ∀ u ∈ l, lower u.username ≠ lower n.username ∧ lower u.email ≠ lower n.email := by
  unfold Unicos
  rw [List.pairwise_append]
  simp

theorem unicos_crearUsuario (lower : JSString → JSString) (st : Almacen)
    (username email password : JSString) (ahora : Int) (fecha : JSString)
    (h : Unicos lower (obtenerUsuarios st)) :
    Unicos lower
      (obtenerUsuarios (crearUsuario lower st username email password ahora fecha).2) := by
  by_cases hu : ∃ u ∈ obtenerUsuarios st, lower u.username = lower username
  · rw [crearUsuario_dup_username lower st username email password ahora fecha hu]
    exact h
  · by_cases he : ∃ u ∈ obtenerUsuarios st, lower u.email = lower email
    · rw [crearUsuario_dup_email lower st username email password ahora fecha hu he]
      exact h
    · rw [crearUsuario_nuevo lower st username email password ahora fecha hu he]
      rw [obtenerUsuarios_guardarUsuarios, unicos_append_singleton]
      refine ⟨h, fun u hmem => ⟨fun hx => hu ⟨u, hmem, hx⟩, fun hx => he ⟨u, hmem, hx⟩⟩⟩

theorem unicos_seedTestUser (lower : JSString → JSString) (st : Almacen) (ahora : Int)
    (fecha : JSString) (h : Unicos lower (obtenerUsuarios st)) :
    Unicos lower (obtenerUsuarios (seedTestUser lower st ahora fecha)) := by
  unfold seedTestUser
  simp only
  split
  · exact h
  · rename_i hc
    simp only [Bool.or_eq_true, not_or, buscarPorEmail_isSome_iff,
      buscarPorUsuario_isSome_iff] at hc
    rw [obtenerUsuarios_guardarUsuarios, unicos_append_singleton]
    exact ⟨h, fun u hmem => ⟨fun hx => hc.2 ⟨u, hmem, hx⟩, fun hx => hc.1 ⟨u, hmem, hx⟩⟩⟩

theorem unicos_ejecutar (lower : JSString → JSString) (ops : List Operacion) :
    ∀ st : Almacen, Unicos lower (obtenerUsuarios st) →
      Unicos lower (obtenerUsuarios (ejecutar lower st ops)) := by
  induction ops with
  | nil => intro st h; exact h
  | cons op ops ih =>
    intro st h
    simp only [ejecutar, List.foldl_cons]
    apply ih
    cases op with
    | crear username email password ahora fecha =>
      exact unicos_crearUsuario lower st username email password ahora fecha h
    | seed ahora fecha => exact unicos_seedTestUser lower st ahora fecha h

theorem idsUnicos_crearUsuario_of_fresh (lower : JSString → JSString) (st : Almacen)
    (username email password : JSString) (ahora : Int) (fecha : JSString)
    (h : IdsUnicos (obtenerUsuarios st)) (hfresh : ∀ u ∈ obtenerUsuarios st, u.id ≠ ahora) :
    IdsUnicos
      (obtenerUsuarios (crearUsuario lower st username email password ahora fecha).2) := by
  by_cases hu : ∃ u ∈ obtenerUsuarios st, lower u.username = lower username
  · rw [crearUsuario_dup_username lower st username email password ahora fecha hu]
    exact h
  · by_cases he : ∃ u ∈ obtenerUsuarios st, lower u.email = lower email
    · rw [crearUsuario_dup_email lower st username email password ahora fecha hu he]
      exact h
    · rw [crearUsuario_nuevo lower st username email password ahora fecha hu he,
        obtenerUsuarios_guardarUsuarios]
      unfold IdsUnicos at h ⊢
      rw [List.pairwise_append]
      exact ⟨h, List.pairwise_singleton _ _, fun a ha b hb => by
        obtain rfl : b = _ := List.mem_singleton.mp hb
        exact hfresh a ha⟩

/-! ## Claims about the user store -/

/-- C1: when no stored record has the given user name and none has the given
email (both compared lower-cased), `crearUsuario` succeeds with a record that
carries exactly that user name, email and password and `activo = true`; the
record is new to the list, and right afterwards `buscarPorUsuario(username)`
and `buscarPorEmail(email)` both return it. -/
theorem crearUsuario_then_findable (lower : JSString → JSString) (st : Almacen)
    (username email password : JSString) (ahora : Int) (fecha : JSString)
    (hu : ∀ u ∈ obtenerUsuarios st, lower u.username ≠ lower username)
    (he : ∀ u ∈ obtenerUsuarios st, lower u.email ≠ lower email) :
    ∃ nuevo : Usuario,
      (crearUsuario lower st username email password ahora fecha).1.exito = true ∧
      (crearUsuario lower st username email password ahora fecha).1.usuario = some nuevo ∧
      nuevo.username = username ∧ nuevo.email = email ∧ nuevo.password = password ∧
      nuevo.activo = true ∧ nuevo ∉ obtenerUsuarios st ∧
      buscarPorUsuario lower
        (crearUsuario lower st username email password ahora fecha).2 username = some nuevo ∧
      buscarPorEmail lower
        (crearUsuario lower st username email password ahora fecha).2 email = some nuevo := by
  have hu2 : ¬ ∃ u ∈ obtenerUsuarios st, lower u.username = lower username :=
    fun ⟨u, hm, hx⟩ => hu u hm hx
  have he2 : ¬ ∃ u ∈ obtenerUsuarios st, lower u.email = lower email :=
    fun ⟨u, hm, hx⟩ => he u hm hx
  rw [crearUsuario_nuevo lower st username email password ahora fecha hu2 he2]
  refine ⟨⟨ahora, username, email, password, fecha, true⟩, rfl, rfl, rfl, rfl, rfl, rfl,
    fun hm => hu _ hm rfl, ?_, ?_⟩
  · have h0 := (buscarPorUsuario_eq_none_iff lower st username).mpr hu
    unfold buscarPorUsuario at h0 ⊢
    simp [obtenerUsuarios_guardarUsuarios, List.find?_append, h0]
  · have h0 := (buscarPorEmail_eq_none_iff lower st email).mpr he
    unfold buscarPorEmail at h0 ⊢
    simp [obtenerUsuarios_guardarUsuarios, List.find?_append, h0]

/-- C1 on `ejemploAlmacen`: `bob` collides with nobody, is created, and both
look-ups return the created record. -/
theorem crearUsuario_then_findable_witness :
    (∀ u ∈ obtenerUsuarios ejemploAlmacen, asciiLower u.username ≠ asciiLower (js "bob")) ∧
    (∀ u ∈ obtenerUsuarios ejemploAlmacen,
      asciiLower u.email ≠ asciiLower (js "bob@example.com")) ∧
    ∃ nuevo : Usuario,
      (crearUsuario asciiLower ejemploAlmacen (js "bob") (js "bob@example.com")
        (js "Secret12") 1700000000001 (js "2023-11-14T22:13:20.001Z")).1.exito = true ∧
      (crearUsuario asciiLower ejemploAlmacen (js "bob") (js "bob@example.com")
        (js "Secret12") 1700000000001 (js "2023-11-14T22:13:20.001Z")).1.usuario
          = some nuevo ∧
      nuevo.username = js "bob" ∧ nuevo.email = js "bob@example.com" ∧
      nuevo.password = js "Secret12" ∧
      nuevo.activo = true ∧ nuevo ∉ obtenerUsuarios ejemploAlmacen ∧
      buscarPorUsuario asciiLower
        (crearUsuario asciiLower ejemploAlmacen (js "bob") (js "bob@example.com")
          (js "Secret12") 1700000000001 (js "2023-11-14T22:13:20.001Z")).2 (js "bob")
          = some nuevo ∧
      buscarPorEmail asciiLower
        (crearUsuario asciiLower ejemploAlmacen (js "bob") (js "bob@example.com")
          (js "Secret12") 1700000000001 (js "2023-11-14T22:13:20.001Z")).2
          (js "bob@example.com") = some nuevo :=
  ⟨by decide, by decide,
    crearUsuario_then_findable asciiLower ejemploAlmacen (js "bob") (js "bob@example.com")
      (js "Secret12") 1700000000001 (js "2023-11-14T22:13:20.001Z") (by decide) (by decide)⟩

/-- C2: uniqueness of lower-cased user names and emails is kept by every call of
`crearUsuario` and of `seedTestUser`, hence by every sequence of such calls, and
it holds in every store reached from the empty one. -/
theorem unicos_invariant (lower : JSString → JSString) :
    (∀ (st : Almacen) (username email password : JSString) (ahora : Int) (fecha : JSString),
      Unicos lower (obtenerUsuarios st) →
      Unicos lower
        (obtenerUsuarios (crearUsuario lower st username email password ahora fecha).2)) ∧
    (∀ (st : Almacen) (ahora : Int) (fecha : JSString),
      Unicos lower (obtenerUsuarios st) →
      Unicos lower (obtenerUsuarios (seedTestUser lower st ahora fecha))) ∧
    (∀ (st : Almacen) (ops : List Operacion),
      Unicos lower (obtenerUsuarios st) →
      Unicos lower (obtenerUsuarios (ejecutar lower st ops))) ∧
    (∀ ops : List Operacion,
      Unicos lower (obtenerUsuarios (ejecutar lower Almacen.vacio ops))) :=
  ⟨unicos_crearUsuario lower, unicos_seedTestUser lower,
    fun st ops h => unicos_ejecutar lower ops st h,
    fun ops => unicos_ejecutar lower ops Almacen.vacio List.Pairwise.nil⟩

/-- C2 on `ejemploAlmacen`: the store is unique before and after a creation
that succeeds. -/
theorem unicos_invariant_witness :
    Unicos asciiLower (obtenerUsuarios ejemploAlmacen) ∧
    (crearUsuario asciiLower ejemploAlmacen (js "bob") (js "bob@example.com")
      (js "Secret12") 1700000000001 (js "2023-11-14T22:13:20.001Z")).1.exito = true ∧
    Unicos asciiLower
      (obtenerUsuarios (crearUsuario asciiLower ejemploAlmacen (js "bob")
        (js "bob@example.com") (js "Secret12") 1700000000001
        (js "2023-11-14T22:13:20.001Z")).2) :=
  ⟨by decide, by decide,
    (unicos_invariant asciiLower).1 ejemploAlmacen (js "bob") (js "bob@example.com")
      (js "Secret12") 1700000000001 (js "2023-11-14T22:13:20.001Z") (by decide)⟩

/-- C3: `crearUsuario` returns the duplicate-user-name result exactly when some
stored user name equals the given one ignoring case; the duplicate-email result
exactly when no stored user name does and some stored email equals the given one
ignoring case; and `exito = true` exactly when neither collides. With `admin`
stored, creating `Admin` returns the duplicate-user-name result and leaves the
storage as it was. -/
theorem crearUsuario_outcome (lower : JSString → JSString) (st : Almacen)
    (username email password : JSString) (ahora : Int) (fecha : JSString) :
    ((crearUsuario lower st username email password ahora fecha).1 =
        { exito := false, mensaje := "El nombre de usuario ya está registrado",
          usuario := none } ↔
      ∃ u ∈ obtenerUsuarios st, lower u.username = lower username) ∧
    ((crearUsuario lower st username email password ahora fecha).1 =
        { exito := false, mensaje := "El correo electrónico ya está registrado",
          usuario := none } ↔
      (¬ ∃ u ∈ obtenerUsuarios st, lower u.username = lower username) ∧
        ∃ u ∈ obtenerUsuarios st, lower u.email = lower email) ∧
    ((crearUsuario lower st username email password ahora fecha).1.exito = true ↔
      (¬ ∃ u ∈ obtenerUsuarios st, lower u.username = lower username) ∧
        ¬ ∃ u ∈ obtenerUsuarios st, lower u.email = lower email) ∧
    (lower (js "Admin") = lower (js "admin") →
      (∃ u ∈ obtenerUsuarios st, u.username = js "admin") →
      crearUsuario lower st (js "Admin") email password ahora fecha =
        ({ exito := false, mensaje := "El nombre de usuario ya está registrado",
           usuario := none }, st)) := by
  have hmsg : "El correo electrónico ya está registrado" ≠
      "El nombre de usuario ya está registrado" := by decide
  refine ⟨?_, ?_, ?_, ?_⟩
  · by_cases hu : ∃ u ∈ obtenerUsuarios st, lower u.username = lower username
    · simp [crearUsuario_dup_username lower st username email password ahora fecha hu, hu]
    · by_cases he : ∃ u ∈ obtenerUsuarios st, lower u.email = lower email
      · simp only [crearUsuario_dup_email lower st username email password ahora fecha hu he,
          hu, iff_false]
        intro h
        exact hmsg (congrArg Resultado.mensaje h)
      · simp only [crearUsuario_nuevo lower st username email password ahora fecha hu he, hu,
          iff_false]
        intro h
        exact Bool.noConfusion (congrArg Resultado.exito h)
  · by_cases hu : ∃ u ∈ obtenerUsuarios st, lower u.username = lower username
    · simp only [crearUsuario_dup_username lower st username email password ahora fecha hu,
        hu, not_true_eq_false, false_and, iff_false]
      intro h
      exact hmsg (congrArg Resultado.mensaje h).symm
    · by_cases he : ∃ u ∈ obtenerUsuarios st, lower u.email = lower email
      · simp [crearUsuario_dup_email lower st username email password ahora fecha hu he, hu,
          he]
      · simp only [crearUsuario_nuevo lower st username email password ahora fecha hu he, hu,
          he, not_false_eq_true, and_false, iff_false]
        intro h
        exact Bool.noConfusion (congrArg Resultado.exito h)
  · by_cases hu : ∃ u ∈ obtenerUsuarios st, lower u.username = lower username
    · simp [crearUsuario_dup_username lower st username email password ahora fecha hu, hu]
    · by_cases he : ∃ u ∈ obtenerUsuarios st, lower u.email = lower email
      · simp [crearUsuario_dup_email lower st username email password ahora fecha hu he, he]
      · simp [crearUsuario_nuevo lower st username email password ahora fecha hu he, hu, he]
  · rintro hcase ⟨u, hm, hx⟩
    exact crearUsuario_dup_username lower st (js "Admin") email password ahora fecha
      ⟨u, hm, by rw [hx, hcase]⟩

/-- C3 on `ejemploAlmacen`, which holds `admin`: creating `Admin` with a fresh
email is refused as a duplicate user name. -/
theorem crearUsuario_outcome_witness :
    asciiLower (js "Admin") = asciiLower (js "admin") ∧
    (∃ u ∈ obtenerUsuarios ejemploAlmacen, u.username = js "admin") ∧
    crearUsuario asciiLower ejemploAlmacen (js "Admin") (js "other@example.com")
        (js "Secret12") 1700000000001 (js "2023-11-14T22:13:20.001Z") =
      ({ exito := false, mensaje := "El nombre de usuario ya está registrado",
         usuario := none }, ejemploAlmacen) :=
  ⟨by decide, by decide,
    (crearUsuario_outcome asciiLower ejemploAlmacen (js "Admin") (js "other@example.com")
      (js "Secret12") 1700000000001 (js "2023-11-14T22:13:20.001Z")).2.2.2
      (by decide) (by decide)⟩

/-- C4: `verificarLogin` answers an email that matches no stored record (with
any password) and an email whose first matching record holds another password
with one and the same object: `exito = false`, the generic message, no
`usuario`. -/
theorem verificarLogin_same_failure (lower : JSString → JSString) (st : Almacen)
    (emailA passwordA emailB passwordB : JSString) (u : Usuario)
    (hA : ∀ v ∈ obtenerUsuarios st, lower v.email ≠ lower emailA)
    (hB : PrimeroConEmail lower (obtenerUsuarios st) emailB u)
    (hpw : u.password ≠ passwordB) :
    (verificarLogin lower st emailA passwordA).1 =
      (verificarLogin lower st emailB passwordB).1 ∧
    (verificarLogin lower st emailA passwordA).1 =
      { exito := false, mensaje := "Correo electrónico o contraseña incorrectos",
        usuario := none } := by
  have h1 := (buscarPorEmail_eq_none_iff lower st emailA).mpr hA
  have h2 := (buscarPorEmail_eq_some_iff lower st emailB u).mpr hB
  simp [verificarLogin, h1, h2, hpw]

/-- C4 on `ejemploAlmacen`: an unknown email and the email of `alice` with a
wrong password get the same answer. -/
theorem verificarLogin_same_failure_witness :
    (∀ v ∈ obtenerUsuarios ejemploAlmacen,
      asciiLower v.email ≠ asciiLower (js "nobody@example.com")) ∧
    PrimeroConEmail asciiLower (obtenerUsuarios ejemploAlmacen) (js "Alice@Example.com")
      ejemploAlice ∧
    ejemploAlice.password ≠ js "passw0rd" ∧
    (verificarLogin asciiLower ejemploAlmacen (js "nobody@example.com") (js "Passw0rd")).1 =
      (verificarLogin asciiLower ejemploAlmacen (js "Alice@Example.com") (js "passw0rd")).1 :=
  have hB : PrimeroConEmail asciiLower (obtenerUsuarios ejemploAlmacen)
      (js "Alice@Example.com") ejemploAlice :=
    ⟨[ejemploAdmin], [], rfl, by decide, by decide⟩
  ⟨by decide, hB, by decide,
    (verificarLogin_same_failure asciiLower ejemploAlmacen (js "nobody@example.com")
      (js "Passw0rd") (js "Alice@Example.com") (js "passw0rd") ejemploAlice
      (by decide) hB (by decide)).1⟩

/-- C5: `verificarLogin(email, password)` has `exito = true` exactly when the
list holds a record whose email equals `email` ignoring case and the first such
record stores exactly `password`, code unit for code unit; on success the
`usuario` returned is that record, the one `buscarPorEmail(email)` returns; the
storage is never changed. -/
theorem verificarLogin_exito_iff (lower : JSString → JSString) (st : Almacen)
    (email password : JSString) :
    ((verificarLogin lower st email password).1.exito = true ↔
      ∃ u, PrimeroConEmail lower (obtenerUsuarios st) email u ∧ u.password = password) ∧
    ((verificarLogin lower st email password).1.exito = true →
      ∃ u, (verificarLogin lower st email password).1.usuario = some u ∧
        u ∈ obtenerUsuarios st ∧
        PrimeroConEmail lower (obtenerUsuarios st) email u ∧ u.password = password ∧
        buscarPorEmail lower st email = some u) ∧
    (verificarLogin lower st email password).2 = st := by
  cases hb : buscarPorEmail lower st email with
  | none =>
    have hnone : ∀ u, ¬ PrimeroConEmail lower (obtenerUsuarios st) email u := by
      intro u hu
      rw [← buscarPorEmail_eq_some_iff, hb] at hu
      exact Option.noConfusion hu
    simp [verificarLogin, hb, hnone]
  | some w =>
    have hw := (buscarPorEmail_eq_some_iff lower st email w).mp hb
    have huniq : ∀ u, PrimeroConEmail lower (obtenerUsuarios st) email u → u = w := by
      intro u hu
      rw [← buscarPorEmail_eq_some_iff, hb] at hu
      exact (Option.some.inj hu).symm
    have hmem : w ∈ obtenerUsuarios st := by
      obtain ⟨pre, post, hl, -, -⟩ := hw
      rw [hl]; simp
    by_cases hp : w.password = password
    · refine ⟨?_, ?_, ?_⟩
      · simp only [verificarLogin, hb, hp, bne_self_eq_false, Bool.false_eq_true, if_false,
          true_iff]
        exact ⟨w, hw, hp⟩
      · intro _
        exact ⟨w, by simp [verificarLogin, hb, hp], hmem, hw, hp, rfl⟩
      · simp [verificarLogin, hb, hp]
    · refine ⟨?_, ?_, ?_⟩
      · simp only [verificarLogin, hb, bne_iff_ne, ne_eq, hp, not_false_eq_true, if_true,
          Bool.false_eq_true, false_iff]
        rintro ⟨u, hu, hpu⟩
        exact hp (huniq u hu ▸ hpu)
      · intro h
        simp [verificarLogin, hb, hp] at h
      · simp [verificarLogin, hb, hp]

/-- C5 on `ejemploAlmacen`: `alice` logs in with her email in another case and
her exact password, and gets her stored record. -/
theorem verificarLogin_exito_iff_witness :
    (verificarLogin asciiLower ejemploAlmacen (js "ALICE@example.com")
      (js "Passw0rd")).1.exito = true ∧
    ∃ u, (verificarLogin asciiLower ejemploAlmacen (js "ALICE@example.com")
        (js "Passw0rd")).1.usuario = some u ∧
      u ∈ obtenerUsuarios ejemploAlmacen ∧
      PrimeroConEmail asciiLower (obtenerUsuarios ejemploAlmacen) (js "ALICE@example.com") u ∧
      u.password = js "Passw0rd" ∧
      buscarPorEmail asciiLower ejemploAlmacen (js "ALICE@example.com") = some u :=
  ⟨by decide,
    (verificarLogin_exito_iff asciiLower ejemploAlmacen (js "ALICE@example.com")
      (js "Passw0rd")).2.1 (by decide)⟩

/-! ## Claims about the validators -/

/-- C6, as the specification words it, fails: `a@b.c@d` has the stated shape
(its last part `c@d` is free of white space) and `validarEmail` rejects it. -/
theorem validarEmail_spec_shape_fails :
    FormaEmailSpec (js "a@b.c@d") ∧ validarEmail (js "a@b.c@d") = false ∧
      ¬ (validarEmail (js "a@b.c@d") = true ↔ FormaEmailSpec (js "a@b.c@d")) := by
  have h1 : FormaEmailSpec (js "a@b.c@d") :=
    ⟨js "a", js "b", js "c@d", by decide, by decide, by decide, by decide, by decide,
      by decide, by decide⟩
  have h2 : validarEmail (js "a@b.c@d") = false := by decide
  refine ⟨h1, h2, ?_⟩
  intro h
  have h3 := h.mpr h1
  rw [h2] at h3
  exact Bool.noConfusion h3

/-- C6, amended: `validarEmail(s)` is true exactly when `s`, in full, is a
non-empty run of code units that are neither white space nor `@`, then `@`, then
a second such run, then `.`, then a third such run (so the last part excludes
`@` too); every accepted string has the shape the specification states. -/
theorem validarEmail_iff_shape (s : JSString) :
    (validarEmail s = true ↔ FormaEmail s) ∧ (validarEmail s = true → FormaEmailSpec s) := by
  refine ⟨validarEmail_iff_formaEmail s, fun h => ?_⟩
  obtain ⟨a, b, c, hs, ha, ha2, hb, hb2, hc, hc2⟩ := (validarEmail_iff_formaEmail s).mp h
  exact ⟨a, b, c, hs, ha, ha2, hb, hb2, hc, fun x hx => (hc2 x hx).1⟩

/-- C7: `validarPassword(s).valido` is true exactly when `s` has at least 8 code
units, one of them a digit `0`-`9` and one of them a letter `A`-`Z`; a valid
result carries the empty message; `short1A` and `longenough` are invalid and
`Longenough1` is valid. -/
theorem validarPassword_valido_iff (s : JSString) :
    ((validarPassword s).valido = true ↔
      8 ≤ s.length ∧ (∃ c ∈ s, 0x30 ≤ c ∧ c ≤ 0x39) ∧ (∃ c ∈ s, 0x41 ≤ c ∧ c ≤ 0x5A)) ∧
    ((validarPassword s).valido = true → (validarPassword s).mensaje = "") ∧
    (validarPassword (js "short1A")).valido = false ∧
    (validarPassword (js "longenough")).valido = false ∧
    (validarPassword (js "Longenough1")).valido = true := by
  have hd : (Regex.cls esDigito).testSearch s = true ↔ ∃ c ∈ s, 0x30 ≤ c ∧ c ≤ 0x39 := by
    rw [Regex.testSearch_cls]; simp [esDigito]
  have hm : (Regex.cls esMayuscula).testSearch s = true ↔ ∃ c ∈ s, 0x41 ≤ c ∧ c ≤ 0x5A := by
    rw [Regex.testSearch_cls]; simp [esMayuscula]
  refine ⟨?_, ?_, by decide, by decide, by decide⟩
  · rw [← hd, ← hm]
    unfold validarPassword
    by_cases h1 : s.length < 8
    · simp [h1]
    · by_cases h2 : (Regex.cls esDigito).testSearch s = true
      · by_cases h3 : (Regex.cls esMayuscula).testSearch s = true
        · simp [h1, h2, h3]; omega
        · simp [h1, h2, h3]
      · simp [h1, h2]
  · unfold validarPassword
    split
    · simp
    · split
      · simp
      · split <;> simp

/-- C8: `validarUsername(s).valido` is true exactly when `s` has between 3 and
20 code units, each of them an ASCII letter, an ASCII digit, `_` or `-`; the empty
string and strings of white space only are rejected; a valid result carries the
empty message; `ab` and `bad user!` are invalid and `valid_user-1` is valid. -/
theorem validarUsername_valido_iff (s : JSString) :
    ((validarUsername s).valido = true ↔
      3 ≤ s.length ∧ s.length ≤ 20 ∧
        ∀ c ∈ s, (0x61 ≤ c ∧ c ≤ 0x7A) ∨ (0x41 ≤ c ∧ c ≤ 0x5A) ∨ (0x30 ≤ c ∧ c ≤ 0x39) ∨
          c = 0x5F ∨ c = 0x2D) ∧
    ((∀ c ∈ s, isWhiteSpace c = true) → (validarUsername s).valido = false) ∧
    ((validarUsername s).valido = true → (validarUsername s).mensaje = "") ∧
    (validarUsername (js "ab")).valido = false ∧
    (validarUsername (js "bad user!")).valido = false ∧
    (validarUsername (js "valid_user-1")).valido = true := by
  have hre := Regex.testAnchored_plus_cls charUsuario s
  refine ⟨?_, ?_, ?_, by decide, by decide, by decide⟩
  · simp only [← charUsuario_iff]
    constructor
    · intro h
      unfold validarUsername at h
      split at h
      · simp at h
      · split at h
        · simp at h
        · rename_i hlen
          split at h
          · simp at h
          · rename_i hm
            simp only [Bool.not_eq_true, Bool.not_eq_eq_eq_not, Bool.not_false,
              Bool.not_not] at hm
            simp only [Bool.or_eq_true, decide_eq_true_eq, not_or, not_lt] at hlen
            have := hre.mp (by simpa using hm)
            exact ⟨hlen.1, by omega, this.2⟩
    · rintro ⟨h3, h20, hall⟩
      have hne : s ≠ [] := by
        intro h0; rw [h0] at h3; simp at h3
      obtain ⟨x, hx⟩ := List.exists_mem_of_ne_nil s hne
      have ht : trim s ≠ [] := trim_ne_nil_of_mem s x hx (not_ws_of_charUsuario x (hall x hx))
      have hm := hre.mpr ⟨hne, hall⟩
      unfold validarUsername
      simp [hne, ht, hm, not_lt.mpr h3, not_lt.mpr h20]
  · intro h
    unfold validarUsername
    simp [trim_eq_nil_of_all_ws s h]
  · unfold validarUsername
    split
    · simp
    · split
      · simp
      · split <;> simp

/-- C7 on `Longenough1`: the password is valid and its message is empty. -/
theorem validarPassword_valido_iff_witness :
    (validarPassword (js "Longenough1")).valido = true ∧
      (validarPassword (js "Longenough1")).mensaje = "" :=
  ⟨by decide, (validarPassword_valido_iff (js "Longenough1")).2.1 (by decide)⟩

/-- C8 on `abc`: the user name is valid and its message is empty. -/
theorem validarUsername_valido_iff_witness :
    (validarUsername (js "abc")).valido = true ∧ (validarUsername (js "abc")).mensaje = "" :=
  ⟨by decide, (validarUsername_valido_iff (js "abc")).2.2.1 (by decide)⟩

/-! ## Claims about ids and the frame of `crearUsuario` -/

/-- C9 fails on the code: two accounts created from the empty store while
`Date.now()` reads the same millisecond both succeed, and the store then holds
two records with one id. -/
theorem crearUsuario_id_collision :
    (crearUsuario asciiLower Almacen.vacio (js "alice") (js "alice@example.com")
      (js "Passw0rd") 1700000000000 (js "2023-11-14T22:13:20.000Z")).1.exito = true ∧
    (crearUsuario asciiLower
      (crearUsuario asciiLower Almacen.vacio (js "alice") (js "alice@example.com")
        (js "Passw0rd") 1700000000000 (js "2023-11-14T22:13:20.000Z")).2
      (js "bob") (js "bob@example.com") (js "Secret12") 1700000000000
      (js "2023-11-14T22:13:20.000Z")).1.exito = true ∧
    (obtenerUsuarios (ejecutar asciiLower Almacen.vacio
      [.crear (js "alice") (js "alice@example.com") (js "Passw0rd") 1700000000000
          (js "2023-11-14T22:13:20.000Z"),
        .crear (js "bob") (js "bob@example.com") (js "Secret12") 1700000000000
          (js "2023-11-14T22:13:20.000Z")])).map Usuario.id
      = [1700000000000, 1700000000000] ∧
    ¬ IdsUnicos (obtenerUsuarios (ejecutar asciiLower Almacen.vacio
      [.crear (js "alice") (js "alice@example.com") (js "Passw0rd") 1700000000000
          (js "2023-11-14T22:13:20.000Z"),
        .crear (js "bob") (js "bob@example.com") (js "Secret12") 1700000000000
          (js "2023-11-14T22:13:20.000Z")])) := by
  refine ⟨by decide, by decide, by decide, by decide⟩

/-- C10: a call of `crearUsuario` that succeeds leaves `obtenerUsuarios()` equal
to the former list followed by the one new record; a call that fails leaves the
whole storage as it was; no call touches the session; on storage that was never
written `obtenerUsuarios()` is the empty list. -/
theorem crearUsuario_appends_only (lower : JSString → JSString) (st : Almacen)
    (username email password : JSString) (ahora : Int) (fecha : JSString) :
    ((crearUsuario lower st username email password ahora fecha).1.exito = true →
      ∃ nuevo : Usuario,
        (crearUsuario lower st username email password ahora fecha).1.usuario = some nuevo ∧
        obtenerUsuarios (crearUsuario lower st username email password ahora fecha).2 =
          obtenerUsuarios st ++ [nuevo]) ∧
    ((crearUsuario lower st username email password ahora fecha).1.exito = false →
      (crearUsuario lower st username email password ahora fecha).2 = st ∧
      obtenerUsuarios (crearUsuario lower st username email password ahora fecha).2 =
        obtenerUsuarios st) ∧
    (crearUsuario lower st username email password ahora fecha).2.sesion = st.sesion ∧
    (st.usuarios = none → obtenerUsuarios st = []) ∧
    obtenerUsuarios Almacen.vacio = [] := by
  refine ⟨?_, ?_, ?_, ?_, rfl⟩
  · by_cases hu : ∃ u ∈ obtenerUsuarios st, lower u.username = lower username
    · simp [crearUsuario_dup_username lower st username email password ahora fecha hu]
    · by_cases he : ∃ u ∈ obtenerUsuarios st, lower u.email = lower email
      · simp [crearUsuario_dup_email lower st username email password ahora fecha hu he]
      · simp [crearUsuario_nuevo lower st username email password ahora fecha hu he,
          obtenerUsuarios_guardarUsuarios]
  · by_cases hu : ∃ u ∈ obtenerUsuarios st, lower u.username = lower username
    · simp [crearUsuario_dup_username lower st username email password ahora fecha hu]
    · by_cases he : ∃ u ∈ obtenerUsuarios st, lower u.email = lower email
      · simp [crearUsuario_dup_email lower st username email password ahora fecha hu he]
      · simp [crearUsuario_nuevo lower st username email password ahora fecha hu he]
  · by_cases hu : ∃ u ∈ obtenerUsuarios st, lower u.username = lower username
    · simp [crearUsuario_dup_username lower st username email password ahora fecha hu]
    · by_cases he : ∃ u ∈ obtenerUsuarios st, lower u.email = lower email
      · simp [crearUsuario_dup_email lower st username email password ahora fecha hu he]
      · simp [crearUsuario_nuevo lower st username email password ahora fecha hu he,
          guardarUsuarios]
  · intro h
    simp [obtenerUsuarios, h]

/-- C10 on `ejemploAlmacen`: creating `bob` succeeds and the list afterwards is
the former list followed by the new record. -/
theorem crearUsuario_appends_only_witness :
    (crearUsuario asciiLower ejemploAlmacen (js "bob") (js "bob@example.com")
      (js "Secret12") 1700000000001 (js "2023-11-14T22:13:20.001Z")).1.exito = true ∧
    ∃ nuevo : Usuario,
      (crearUsuario asciiLower ejemploAlmacen (js "bob") (js "bob@example.com")
        (js "Secret12") 1700000000001 (js "2023-11-14T22:13:20.001Z")).1.usuario
          = some nuevo ∧
      obtenerUsuarios (crearUsuario asciiLower ejemploAlmacen (js "bob")
        (js "bob@example.com") (js "Secret12") 1700000000001
        (js "2023-11-14T22:13:20.001Z")).2 = obtenerUsuarios ejemploAlmacen ++ [nuevo] :=
  ⟨by decide,
    (crearUsuario_appends_only asciiLower ejemploAlmacen (js "bob") (js "bob@example.com")
      (js "Secret12") 1700000000001 (js "2023-11-14T22:13:20.001Z")).1 (by decide)⟩

/-! ## Facts about the carousel handlers -/

theorem jsMod_next (n : Nat) (i : Int) (h0 : 0 ≤ i) (hi : i < n) :
    jsMod (i + 1) n = (i + 1) % n ∧ (i + 1) % (n : Int) = if i + 1 = n then 0 else i + 1 := by
  have hn : (0 : Int) ≤ n := Int.ofNat_nonneg n
  refine ⟨Int.tmod_eq_emod (by omega) hn, ?_⟩
  split
  · rename_i h; rw [h]; exact Int.emod_self
  · exact Int.emod_eq_of_lt (by omega) (by omega)

theorem jsMod_prev (n : Nat) (i : Int) (h0 : 0 ≤ i) (hi : i < n) :
    jsMod (i - 1 + n) n = (i - 1 + n) % n ∧
      (i - 1 + n) % (n : Int) = if i = 0 then (n : Int) - 1 else i - 1 := by
  have hn : (0 : Int) ≤ n := Int.ofNat_nonneg n
  refine ⟨Int.tmod_eq_emod (by omega) hn, ?_⟩
  split
  · rename_i h; subst h
    exact Int.emod_eq_of_lt (by omega) (by omega)
  · rw [Int.add_emod_self]
    exact Int.emod_eq_of_lt (by omega) (by omega)

theorem clickNext_currentIndex (n : Nat) (c : Carrusel) (h0 : 0 ≤ c.currentIndex)
    (hi : c.currentIndex < n) :
    (clickNext n c).currentIndex = if c.currentIndex + 1 = n then 0 else c.currentIndex + 1 := by
  have h := jsMod_next n c.currentIndex h0 hi
  show jsMod (c.currentIndex + 1) n = _
  rw [h.1, h.2]

theorem clickPrev_currentIndex (n : Nat) (c : Carrusel) (h0 : 0 ≤ c.currentIndex)
    (hi : c.currentIndex < n) :
    (clickPrev n c).currentIndex = if c.currentIndex = 0 then (n : Int) - 1
      else c.currentIndex - 1 := by
  have h := jsMod_prev n c.currentIndex h0 hi
  show jsMod (c.currentIndex - 1 + n) n = _
  rw [h.1, h.2]

theorem pulsar_en_rango (n : Nat) (clicks : List Click) :
    ∀ c : Carrusel, 0 ≤ c.currentIndex → c.currentIndex < n →
      0 ≤ (pulsar n c clicks).currentIndex ∧ (pulsar n c clicks).currentIndex < n := by
  induction clicks with
  | nil => intro c h0 hi; exact ⟨h0, hi⟩
  | cons k clicks ih =>
    intro c h0 hi
    simp only [pulsar, List.foldl_cons]
    cases k with
    | next =>
      have h := clickNext_currentIndex n c h0 hi
      apply ih
      · show 0 ≤ (clickNext n c).currentIndex
        rw [h]; split <;> omega
      · show (clickNext n c).currentIndex < n
        rw [h]; split <;> omega
    | prev =>
      have h := clickPrev_currentIndex n c h0 hi
      apply ih
      · show 0 ≤ (clickPrev n c).currentIndex
        rw [h]; split <;> omega
      · show (clickPrev n c).currentIndex < n
        rw [h]; split <;> omega

/-! ## Claims about the session and the carousel -/

/-- C11: from any session state, after `iniciarSesion(r)` the call
`obtenerUsuarioActual()` returns `r`, every field equal, whatever was stored
before, and `usuarioEstaLogueado()` is true; the user list is not touched. With
no session stored `obtenerUsuarioActual()` is `null` and `usuarioEstaLogueado()`
is false. -/
theorem sesion_round_trip (st : Almacen) (r : Usuario) :
    obtenerUsuarioActual (iniciarSesion st r) = some r ∧
    (∃ u, obtenerUsuarioActual (iniciarSesion st r) = some u ∧
      u.id = r.id ∧ u.username = r.username ∧ u.email = r.email ∧
      u.password = r.password ∧ u.fechaRegistro = r.fechaRegistro ∧ u.activo = r.activo) ∧
    usuarioEstaLogueado (iniciarSesion st r) = true ∧
    (iniciarSesion st r).usuarios = st.usuarios ∧
    (st.sesion = none → obtenerUsuarioActual st = none ∧ usuarioEstaLogueado st = false) ∧
    obtenerUsuarioActual Almacen.vacio = none ∧ usuarioEstaLogueado Almacen.vacio = false := by
  refine ⟨rfl, ⟨r, rfl, rfl, rfl, rfl, rfl, rfl, rfl⟩, rfl, rfl, ?_, rfl, rfl⟩
  intro h
  simp [obtenerUsuarioActual, usuarioEstaLogueado, h]

/-- C11 on a browser where `ejemploAdmin` is logged in: logging `ejemploAlice`
in overwrites the session; and on `ejemploAlmacen`, which has no session,
nobody is logged in. -/
theorem sesion_round_trip_witness :
    obtenerUsuarioActual (iniciarSesion (iniciarSesion ejemploAlmacen ejemploAdmin)
      ejemploAlice) = some ejemploAlice ∧
    ejemploAlmacen.sesion = none ∧
    obtenerUsuarioActual ejemploAlmacen = none ∧ usuarioEstaLogueado ejemploAlmacen = false :=
  ⟨(sesion_round_trip (iniciarSesion ejemploAlmacen ejemploAdmin) ejemploAlice).1, rfl,
    (sesion_round_trip ejemploAlmacen ejemploAlice).2.2.2.2.1 rfl⟩

/-- C12: from any session state, after `UsuarioManager.cerrarSesion()` the call
`obtenerUsuarioActual()` returns `null`; a second call leaves the storage exactly
as the first did, so it returns `null` again; no call changes the user list. -/
theorem cerrarSesion_idempotent (st : Almacen) :
    obtenerUsuarioActual (cerrarSesion st) = none ∧
    cerrarSesion (cerrarSesion st) = cerrarSesion st ∧
    obtenerUsuarioActual (cerrarSesion (cerrarSesion st)) = none ∧
    usuarioEstaLogueado (cerrarSesion st) = false ∧
    obtenerUsuarios (cerrarSesion st) = obtenerUsuarios st ∧
    obtenerUsuarios (cerrarSesion (cerrarSesion st)) = obtenerUsuarios st ∧
    (cerrarSesion st).usuarios = st.usuarios ∧
    (cerrarSesion (cerrarSesion st)).usuarios = st.usuarios :=
  ⟨rfl, rfl, rfl, rfl, rfl, rfl, rfl, rfl⟩

/-- C13: with `n ≥ 1` slides and `currentIndex = i` in `[0, n)`, the handler of
`next` sets `currentIndex` to `(i + 1) mod n` and the handler of `prev` sets it to
`(i - 1 + n) mod n`; both results are in `[0, n)`, and so is the index after any
sequence of clicks; `next` takes `n - 1` to `0` and `prev` takes `0` to `n - 1`;
`prev` after `next` and `next` after `prev` give `i` back. -/
theorem carrusel_index_wraps (n : Nat) (c : Carrusel) (hn : 1 ≤ n)
    (h0 : 0 ≤ c.currentIndex) (hi : c.currentIndex < n) :
    (clickNext n c).currentIndex = (c.currentIndex + 1) % n ∧
    (clickPrev n c).currentIndex = (c.currentIndex - 1 + n) % n ∧
    (0 ≤ (clickNext n c).currentIndex ∧ (clickNext n c).currentIndex < n) ∧
    (0 ≤ (clickPrev n c).currentIndex ∧ (clickPrev n c).currentIndex < n) ∧
    (∀ clicks : List Click,
      0 ≤ (pulsar n c clicks).currentIndex ∧ (pulsar n c clicks).currentIndex < n) ∧
    (c.currentIndex = n - 1 → (clickNext n c).currentIndex = 0) ∧
    (c.currentIndex = 0 → (clickPrev n c).currentIndex = n - 1) ∧
    (clickPrev n (clickNext n c)).currentIndex = c.currentIndex ∧
    (clickNext n (clickPrev n c)).currentIndex = c.currentIndex := by
  have hN := clickNext_currentIndex n c h0 hi
  have hP := clickPrev_currentIndex n c h0 hi
  have hN0 : 0 ≤ (clickNext n c).currentIndex := by rw [hN]; split <;> omega
  have hN1 : (clickNext n c).currentIndex < n := by rw [hN]; split <;> omega
  have hP0 : 0 ≤ (clickPrev n c).currentIndex := by rw [hP]; split <;> omega
  have hP1 : (clickPrev n c).currentIndex < n := by rw [hP]; split <;> omega
  refine ⟨(jsMod_next n c.currentIndex h0 hi).1, (jsMod_prev n c.currentIndex h0 hi).1,
    ⟨hN0, hN1⟩, ⟨hP0, hP1⟩, fun clicks => pulsar_en_rango n clicks c h0 hi, ?_, ?_, ?_, ?_⟩
  · intro h; rw [hN, if_pos (by omega)]
  · intro h; rw [hP, if_pos h]
  · rw [clickPrev_currentIndex n _ hN0 hN1, hN]
    split <;> split <;> omega
  · rw [clickNext_currentIndex n _ hP0 hP1, hP]
    split <;> split <;> omega

/-- C13 on a carousel of three slides showing the last one: `next` wraps to
index `0`, `prev` goes to `1`, and `prev` after `next` is back on index `2`. -/
theorem carrusel_index_wraps_witness :
    (clickNext 3 { currentIndex := 2, transform := some 200 }).currentIndex = 0 ∧
    (clickPrev 3 { currentIndex := 2, transform := some 200 }).currentIndex = 1 ∧
    (clickPrev 3 (clickNext 3 { currentIndex := 2, transform := some 200 })).currentIndex
      = 2 :=
  have h := carrusel_index_wraps 3 { currentIndex := 2, transform := some 200 }
    (by decide) (by decide) (by decide)
  ⟨h.2.2.2.2.2.1 (by decide), by decide, h.2.2.2.2.2.2.2.1⟩

end Stergy
